import Mathlib

/-!
Shallow embedding of `src/components/EntryList.tsx` (the `EntryList` React
component): its state hooks, the `fetchEntries` callback, the request built
inside it, the search-input change handler with its 500ms debounce effect,
the infinite-scroll sentinel gate (`observerTarget`), and `handleEntrySelect`.

The network and the JSON parser are external collaborators; a fetch is
modelled by the outcome the `await response.json()` line delivers to the
rest of the function: either a parsed body, or a thrown `Error` (transport
or parse failure) carrying a message, or a thrown non-`Error` value.
JavaScript truthiness of the optional string fields (`data.error`,
`data.nextPageCursor`) is modelled explicitly: a string is truthy iff it is
non-empty, an absent/null field is falsy.
-/

namespace EntryListModel

set_option linter.unusedVariables false

/-- `DatastoreEntry` from `@/types/api` as used here: only the `key` field
is ever constructed or read (`{ key: k.key }`). -/
structure DatastoreEntry where
  key : String
  deriving DecidableEq, Repr

/-- One element of the response's `keys` array: an object carrying a `key`
string. -/
structure KeyRecord where
  key : String
  deriving DecidableEq, Repr

/-- The parsed JSON response body shape
`{ keys?: [{key: string}], nextPageCursor?: string, error?: string }`.
`none` stands for an absent (or null) field. -/
structure ResponseData where
  keys : Option (List KeyRecord)
  nextPageCursor : Option String
  error : Option String
  deriving DecidableEq, Repr

/-- What `await fetch(...)` / `await response.json()` delivers to the rest
of `fetchEntries`: a parsed body, a thrown `Error` (network or JSON parse
failure) with its `.message`, or a thrown non-`Error` value. -/
inductive FetchOutcome where
  | ok (data : ResponseData)
  | thrownError (msg : String)
  | thrownNonError
  deriving DecidableEq, Repr

/-- The component's `useState` hooks: `entries`, `searchQuery`, `isLoading`,
`cursor`, `hasMore`. -/
structure ComponentState where
  entries : List DatastoreEntry
  searchQuery : String
  isLoading : Bool
  cursor : String
  hasMore : Bool
  deriving DecidableEq, Repr

/-- Initial hook values: `useState([])`, `useState("")`, `useState(false)`,
`useState("")`, `useState(true)`. -/
def initialState : ComponentState :=
  { entries := [], searchQuery := "", isLoading := false, cursor := "",
    hasMore := true }

/-- JavaScript truthiness of an optional string: truthy iff present and
non-empty (models `if (data.error)` and `!!data.nextPageCursor`). -/
def truthyStr : Option String → Bool
  | none => false
  | some s => !(s == "")

/-- Models `data.nextPageCursor || ""`: the string itself when truthy,
otherwise the empty string. -/
def orEmptyStr : Option String → String
  | none => ""
  | some s => if s == "" then "" else s

/-- A call `toast(message, severity, { duration })`. -/
structure Toast where
  message : String
  severity : String
  duration : Nat
  deriving DecidableEq, Repr

/-- The toast produced in the catch block:
`toast("Error: " + errorMessage, "error", { duration: 3000 })`. -/
def errorToast (msg : String) : Toast :=
  { message := "Error: " ++ msg, severity := "error", duration := 3000 }

/-- `const formattedEntries = (data.keys || []).map((k) => ({ key: k.key }))`. -/
def formattedEntries (data : ResponseData) : List DatastoreEntry :=
  (data.keys.getD []).map (fun k => { key := k.key })

/-- `setIsLoading(true)` at the top of the try block. -/
def fetchStart (s : ComponentState) : ComponentState :=
  { s with isLoading := true }

/-- The state/toast effect of one complete `fetchEntries(searchValue,
newSearch)` call, given the outcome the awaited fetch delivered.
Mirrors the try/catch/finally body: on a parsed body with a truthy `error`
field, `throw new Error(data.error)` lands in the catch block; the catch
block toasts `"Error: " + errorMessage` (with `"Unknown error"` for a
non-`Error` throw) and touches no other state; the success path replaces or
appends `formattedEntries`, sets `cursor` to `data.nextPageCursor || ""`
and `hasMore` to `!!data.nextPageCursor`; the finally block runs
`setIsLoading(false)` on every path. -/
def fetchEntries (s : ComponentState) (searchValue : String) (newSearch : Bool)
    (outcome : FetchOutcome) : ComponentState × List Toast :=
  let s1 := fetchStart s
  let result : ComponentState × List Toast :=
    match outcome with
    | .ok data =>
        if truthyStr data.error then
          (s1, [errorToast (data.error.getD "")])
        else
          ({ s1 with
              entries := if newSearch then formattedEntries data
                         else s1.entries ++ formattedEntries data,
              cursor := orEmptyStr data.nextPageCursor,
              hasMore := truthyStr data.nextPageCursor },
           [])
    | .thrownError msg => (s1, [errorToast msg])
    | .thrownNonError => (s1, [errorToast "Unknown error"])
  ({ result.1 with isLoading := false }, result.2)

/-- `const currentCursor = newSearch ? "" : cursor`. -/
def currentCursorSent (s : ComponentState) (newSearch : Bool) : String :=
  if newSearch then "" else s.cursor

/-- The outbound request: path segment = datastore name, and the
`URLSearchParams` (`universeId`, `apiToken`, `prefix`, plus `cursor` only
when `currentCursor` is truthy, via `...(currentCursor && { cursor })`).
`prefixParam` models the `prefix` query parameter. -/
structure FetchRequest where
  datastoreName : String
  universeId : String
  apiToken : String
  prefixParam : String
  cursor : Option String
  deriving DecidableEq, Repr

/-- Builds the request `fetchEntries` issues, from the props, the current
state and the call arguments. -/
def buildRequest (universeId apiToken datastoreName : String)
    (s : ComponentState) (searchValue : String) (newSearch : Bool) :
    FetchRequest :=
  let currentCursor := currentCursorSent s newSearch
  { datastoreName := datastoreName, universeId := universeId,
    apiToken := apiToken, prefixParam := searchValue,
    cursor := if currentCursor == "" then none else some currentCursor }

/-- The gate under which the scroll sentinel can trigger a fetch: the
sentinel `div` is rendered only under `hasMore && ...`, and `observerTarget`
returns before attaching an observer when `isLoading || !hasMore`. -/
def sentinelFetchGate (s : ComponentState) : Bool :=
  s.hasMore && !s.isLoading

/-- One sentinel-visibility event: when the gate passes, the attached
observer fires `fetchEntries(searchQuery)` (with `newSearch` defaulted to
`false`); otherwise nothing happens. -/
def sentinelStep (s : ComponentState) (outcome : FetchOutcome) :
    ComponentState :=
  if sentinelFetchGate s then
    (fetchEntries s s.searchQuery false outcome).1
  else s

/-- A continuation-page call as triggered by the sentinel:
`fetchEntries(searchQuery)` with `newSearch = false`. -/
def applyPage (st : ComponentState) (d : ResponseData) : ComponentState :=
  (fetchEntries st st.searchQuery false (.ok d)).1

/-- A fresh-search call followed by a list of continuation calls, every
response successfully parsed. -/
def runSession (s : ComponentState) (first : ResponseData)
    (rest : List ResponseData) : ComponentState :=
  rest.foldl applyPage (fetchEntries s s.searchQuery true (.ok first)).1

/-- A page on which the success path runs and reports more data: no truthy
`error` field, and a truthy (present, non-empty) `nextPageCursor`. -/
def goodPage (d : ResponseData) : Prop :=
  truthyStr d.error = false ∧ truthyStr d.nextPageCursor = true

instance (d : ResponseData) : Decidable (goodPage d) :=
  inferInstanceAs (Decidable (_ ∧ _))

/-- `handleEntrySelect`: logs and calls `onSelectEntry(key)`; it reads no
state setter, so the component state is returned unchanged alongside the
list of callback invocations it makes. -/
def handleEntrySelect (s : ComponentState) (key : String) :
    ComponentState × List String :=
  (s, [key])

/-- State of the search box and its debounce effect: the current
`searchQuery`, the pending 500ms timer (carrying the `searchQuery` value its
effect closure captured), and the log of `fetchEntries` calls issued so far
as (prefix, isNewSearch) pairs. -/
structure SearchBoxState where
  searchQuery : String
  pendingTimer : Option String
  fetchLog : List (String × Bool)
  deriving DecidableEq, Repr

/-- The events the search box reacts to: the input's `onChange` with new
text, the pending debounce timer expiring after 500ms idle, and unmount. -/
inductive UIEvent where
  | searchChange (v : String)
  | timerFire
  | unmount
  deriving DecidableEq, Repr

/-- One step of the search box. `searchChange v` runs the `onChange`
handler — `setSearchQuery(v)` then `fetchEntries(v, true)` synchronously —
and the effect keyed on `searchQuery` then re-runs: its cleanup clears the
previous timer and it schedules a new 500ms timer capturing `v`.
`timerFire` runs the pending timer's callback, which fetches
`fetchEntries(searchQuery, true)` only `if (datastoreName)`. `unmount` runs
the effect cleanup, clearing the pending timer. -/
def uiStep (datastoreName : String) (st : SearchBoxState) :
    UIEvent → SearchBoxState
  | .searchChange v =>
      { searchQuery := v,
        pendingTimer := some v,
        fetchLog := st.fetchLog ++ [(v, true)] }
  | .timerFire =>
      match st.pendingTimer with
      | none => st
      | some v =>
          { st with
            pendingTimer := none,
            fetchLog := if datastoreName == "" then st.fetchLog
                        else st.fetchLog ++ [(v, true)] }
  | .unmount => { st with pendingTimer := none }

/-- The concrete body `{"keys": [{"key":"a"},{"key":"b"}],
"nextPageCursor": ""}` from the spec's example. -/
def exampleBodyAB : ResponseData :=
  { keys := some [{ key := "a" }, { key := "b" }],
    nextPageCursor := some "", error := none }

/-- The concrete body `{"error": "not found"}` from the spec's example. -/
def exampleBodyErr : ResponseData :=
  { keys := none, nextPageCursor := none, error := some "not found" }

/-- A body whose `error` field is present but the empty string: falsy in
JavaScript, so `if (data.error)` does not throw on it. -/
def exampleBodyEmptyErr : ResponseData :=
  { keys := none, nextPageCursor := none, error := some "" }

/-- A successful first page: keys `a`, `b`, cursor `"c1"`. -/
def pageA : ResponseData :=
  { keys := some [{ key := "a" }, { key := "b" }],
    nextPageCursor := some "c1", error := none }

/-- A successful continuation page: key `c`, cursor `"c2"`. -/
def pageB : ResponseData :=
  { keys := some [{ key := "c" }], nextPageCursor := some "c2", error := none }

/-- A state mid-session: non-empty entry list and a stored cursor. -/
def stateWithCursor : ComponentState :=
  { entries := [{ key := "a" }], searchQuery := "p", isLoading := false,
    cursor := "cur", hasMore := true }

/-- An exhausted session: `hasMore` is false. -/
def exhaustedState : ComponentState :=
  { entries := [{ key := "a" }], searchQuery := "q", isLoading := false,
    cursor := "", hasMore := false }

/-- A body with no `keys` field but a non-empty `nextPageCursor`. -/
def bodyNoKeys : ResponseData :=
  { keys := none, nextPageCursor := some "z", error := none }

/-- Search box before any keystroke. -/
def initialSearchBox : SearchBoxState :=
  { searchQuery := "", pendingTimer := none, fetchLog := [] }

/-- `truthyStr` holds exactly on present non-empty strings. -/
theorem truthyStr_eq_true_iff (o : Option String) :
    truthyStr o = true ↔ o ≠ none ∧ o ≠ some "" := by
  cases o with
  | none => simp [truthyStr]
  | some s => simp [truthyStr]

/-- A good page appends its formatted entries and leaves `hasMore` true. -/
theorem applyPage_good (st : ComponentState) (d : ResponseData)
    (hd : goodPage d) :
    (applyPage st d).entries = st.entries ++ formattedEntries d
    ∧ (applyPage st d).hasMore = true := by
  obtain ⟨h1, h2⟩ := hd
  constructor <;> simp [applyPage, fetchEntries, fetchStart, h1, h2]

/-- Folding good continuation pages appends their formatted entries in
arrival order. -/
theorem foldl_applyPage_entries (l : List ResponseData) (st : ComponentState)
    (h : ∀ d ∈ l, goodPage d) :
    (l.foldl applyPage st).entries
      = st.entries ++ (l.map formattedEntries).flatten := by
  induction l generalizing st with
  | nil => simp
  | cons d tl ih =>
      have hd := h d (List.mem_cons_self d tl)
      have htl : ∀ x ∈ tl, goodPage x := fun x hx => h x (List.mem_cons_of_mem _ hx)
      simp [List.foldl_cons, ih _ htl, (applyPage_good st d hd).1,
        List.append_assoc]

/-- Folding good continuation pages keeps `hasMore` true. -/
theorem foldl_applyPage_hasMore (l : List ResponseData) (st : ComponentState)
    (h : ∀ d ∈ l, goodPage d) (hst : st.hasMore = true) :
    (l.foldl applyPage st).hasMore = true := by
  induction l generalizing st with
  | nil => simpa using hst
  | cons d tl ih =>
      exact ih _ (fun x hx => h x (List.mem_cons_of_mem _ hx))
        (applyPage_good st d (h d (List.mem_cons_self d tl))).2

/-- The sentinel does nothing once `hasMore` is false. -/
theorem sentinelStep_of_no_more (s : ComponentState) (o : FetchOutcome)
    (h : s.hasMore = false) : sentinelStep s o = s := by
  simp [sentinelStep, sentinelFetchGate, h]

/-- Any number of sentinel-visibility events after exhaustion change
nothing. -/
theorem foldl_sentinel_no_more (outs : List FetchOutcome)
    (s : ComponentState) (h : s.hasMore = false) :
    outs.foldl sentinelStep s = s := by
  induction outs with
  | nil => rfl
  | cons o tl ih => rw [List.foldl_cons, sentinelStep_of_no_more s o h]; exact ih

/-- C1: on every successful `fetchEntries` call, a fresh search replaces the
entry list by the page's formatted keys while a continuation appends them;
the stored cursor becomes `nextPageCursor || ""` and `hasMore` becomes
truthy-ness of `nextPageCursor`, which holds iff that value is present and
non-empty; on the concrete body `{"keys":[{"key":"a"},{"key":"b"}],
"nextPageCursor": ""}` a fresh search yields entries `[a, b]`,
`hasMore = false`, `cursor = ""`. -/
theorem fetchEntries_success_update
    (s : ComponentState) (v : String) (data : ResponseData)
    (hnoerr : truthyStr data.error = false) :
    (fetchEntries s v true (.ok data)).1.entries = formattedEntries data
    ∧ (fetchEntries s v false (.ok data)).1.entries
        = s.entries ++ formattedEntries data
    ∧ (fetchEntries s v true (.ok data)).1.cursor
        = orEmptyStr data.nextPageCursor
    ∧ (fetchEntries s v false (.ok data)).1.cursor
        = orEmptyStr data.nextPageCursor
    ∧ (fetchEntries s v true (.ok data)).1.hasMore
        = truthyStr data.nextPageCursor
    ∧ (fetchEntries s v false (.ok data)).1.hasMore
        = truthyStr data.nextPageCursor
    ∧ (truthyStr data.nextPageCursor = true
        ↔ data.nextPageCursor ≠ none ∧ data.nextPageCursor ≠ some "")
    ∧ (fetchEntries initialState "" true (.ok exampleBodyAB)).1.entries
        = [{ key := "a" }, { key := "b" }]
    ∧ (fetchEntries initialState "" true (.ok exampleBodyAB)).1.hasMore = false
    ∧ (fetchEntries initialState "" true (.ok exampleBodyAB)).1.cursor = "" := by
  refine ⟨?_, ?_, ?_, ?_, ?_, ?_, truthyStr_eq_true_iff _, by decide, by decide,
    by decide⟩
  all_goals simp [fetchEntries, fetchStart, hnoerr]

/-- C1 witness at the spec's concrete example body. -/
theorem fetchEntries_success_update_witness :
    (fetchEntries initialState "" true (.ok exampleBodyAB)).1.entries
      = formattedEntries exampleBodyAB :=
  (fetchEntries_success_update initialState "" exampleBodyAB rfl).1

/-- C2 counterexample: the body `{"error": ""}` contains an `error` field,
yet the call produces no notification, and `hasMore` changes from its
pre-call value (`if (data.error)` is a truthiness test, so an empty-string
error takes the success path). -/
theorem error_field_empty_no_notification :
    (fetchEntries initialState "" true (.ok exampleBodyEmptyErr)).2 = []
    ∧ (fetchEntries initialState "" true (.ok exampleBodyEmptyErr)).1.hasMore
        ≠ initialState.hasMore := by
  exact ⟨rfl, by decide⟩

/-- C2 (amended): on a thrown error, or a parsed body whose `error` value is
a non-empty string, the call toasts `"Error: " ++ message` with severity
`"error"` and duration 3000, leaves entries, cursor and `hasMore` at their
pre-call values and resets only the loading flag; the body
`{"error": "not found"}` produces the toast `"Error: not found"` and leaves
the entry list unchanged. -/
theorem fetch_error_notification
    (s : ComponentState) (v : String) (b : Bool) (msg e : String)
    (data : ResponseData) (herr : data.error = some e) (hne : e ≠ "") :
    (fetchEntries s v b (.thrownError msg)).2 = [errorToast msg]
    ∧ (errorToast msg).message = "Error: " ++ msg
    ∧ (errorToast msg).severity = "error"
    ∧ (errorToast msg).duration = 3000
    ∧ (fetchEntries s v b (.thrownError msg)).1.entries = s.entries
    ∧ (fetchEntries s v b (.thrownError msg)).1.cursor = s.cursor
    ∧ (fetchEntries s v b (.thrownError msg)).1.hasMore = s.hasMore
    ∧ (fetchEntries s v b (.thrownError msg)).1.isLoading = false
    ∧ (fetchEntries s v b (.ok data)).2 = [errorToast e]
    ∧ (fetchEntries s v b (.ok data)).1.entries = s.entries
    ∧ (fetchEntries s v b (.ok data)).1.cursor = s.cursor
    ∧ (fetchEntries s v b (.ok data)).1.hasMore = s.hasMore
    ∧ (fetchEntries s v b (.ok data)).1.isLoading = false
    ∧ (fetchEntries initialState "" true (.ok exampleBodyErr)).2
        = [{ message := "Error: not found", severity := "error",
             duration := 3000 }]
    ∧ (fetchEntries initialState "" true (.ok exampleBodyErr)).1.entries
        = initialState.entries := by
  have htr : truthyStr data.error = true := by simp [herr, truthyStr, hne]
  refine ⟨rfl, rfl, rfl, rfl, rfl, rfl, rfl, rfl, ?_, ?_, ?_, ?_, ?_,
    by decide, by decide⟩
  all_goals simp [fetchEntries, fetchStart, htr, herr, truthyStr, hne]

/-- C2 witness: a thrown transport error with message `"boom"`. -/
theorem fetch_error_notification_witness :
    (fetchEntries initialState "" true (.thrownError "boom")).2
      = [errorToast "boom"] :=
  (fetch_error_notification initialState "" true "boom" "not found"
    exampleBodyErr rfl (by decide)).1

/-- C3: a fresh search followed by continuation calls, all pages successful
with non-empty `nextPageCursor`, accumulates exactly the concatenation of
the pages' formatted keys in arrival order, and `hasMore` is true after
every prefix of the sequence. -/
theorem pagination_concat
    (s : ComponentState) (first : ResponseData) (rest : List ResponseData)
    (h1 : goodPage first) (h2 : ∀ d ∈ rest, goodPage d) (n : Nat) :
    (runSession s first (rest.take n)).entries
      = formattedEntries first ++ ((rest.take n).map formattedEntries).flatten
    ∧ (runSession s first (rest.take n)).hasMore = true := by
  have htake : ∀ d ∈ rest.take n, goodPage d :=
    fun d hd => h2 d (List.take_subset n rest hd)
  have he : (fetchEntries s s.searchQuery true (.ok first)).1.entries
      = formattedEntries first := by
    simp [fetchEntries, fetchStart, h1.1]
  have hm : (fetchEntries s s.searchQuery true (.ok first)).1.hasMore = true := by
    simp [fetchEntries, fetchStart, h1.1, h1.2]
  constructor
  · rw [runSession, foldl_applyPage_entries _ _ htake, he]
  · exact foldl_applyPage_hasMore _ _ htake hm

/-- C3 witness: two concrete pages, each with a non-empty cursor. -/
theorem pagination_concat_witness :
    (runSession initialState pageA ([pageB].take 1)).entries
      = formattedEntries pageA
        ++ (([pageB].take 1).map formattedEntries).flatten :=
  (pagination_concat initialState pageA [pageB] (by decide) (by decide) 1).1

/-- C4: the cursor sent is empty on a fresh search and the last received
cursor otherwise; the request carries the datastore name, universe id,
access token and prefix, and includes the cursor parameter exactly when the
cursor to send is non-empty. -/
theorem request_params_correct
    (u a dn : String) (s : ComponentState) (v : String) (b : Bool) :
    currentCursorSent s true = ""
    ∧ currentCursorSent s false = s.cursor
    ∧ (buildRequest u a dn s v b).datastoreName = dn
    ∧ (buildRequest u a dn s v b).universeId = u
    ∧ (buildRequest u a dn s v b).apiToken = a
    ∧ (buildRequest u a dn s v b).prefixParam = v
    ∧ ((buildRequest u a dn s v b).cursor = none ↔ currentCursorSent s b = "")
    ∧ (currentCursorSent s b ≠ ""
        → (buildRequest u a dn s v b).cursor
            = some (currentCursorSent s b)) := by
  refine ⟨rfl, rfl, rfl, rfl, rfl, rfl, ?_, ?_⟩
  · by_cases hc : currentCursorSent s b = "" <;> simp [buildRequest, hc]
  · intro hc
    simp [buildRequest, hc]

/-- C4 witness: a continuation call from a state holding cursor `"cur"`. -/
theorem request_params_correct_witness :
    (buildRequest "u" "t" "ds" stateWithCursor "p" false).cursor
      = some (currentCursorSent stateWithCursor false) :=
  (request_params_correct "u" "t" "ds" stateWithCursor "p" false).2.2.2.2.2.2.2
    (by decide)

/-- C5: a successful response whose `nextPageCursor` is absent or empty
turns `hasMore` false; the sentinel gate blocks a fetch whenever `hasMore`
is false or a load is in flight, so from exhaustion on, any sequence of
sentinel-visibility events leaves the state untouched. -/
theorem exhausted_sentinel_silent
    (s : ComponentState) (v : String) (b : Bool) (d : ResponseData)
    (o : FetchOutcome) (outs : List FetchOutcome)
    (hnoerr : truthyStr d.error = false)
    (hempty : d.nextPageCursor = none ∨ d.nextPageCursor = some "") :
    (fetchEntries s v b (.ok d)).1.hasMore = false
    ∧ (s.hasMore = false → sentinelStep s o = s)
    ∧ (s.isLoading = true → sentinelStep s o = s)
    ∧ (s.hasMore = false → outs.foldl sentinelStep s = s) := by
  have hcur : truthyStr d.nextPageCursor = false := by
    rcases hempty with h | h <;> simp [h, truthyStr]
  refine ⟨?_, fun h => sentinelStep_of_no_more s o h, fun h => ?_,
    fun h => foldl_sentinel_no_more outs s h⟩
  · simp [fetchEntries, fetchStart, hnoerr, hcur]
  · simp [sentinelStep, sentinelFetchGate, h]

/-- C5 witness: an exhausted state absorbs a sentinel event. -/
theorem exhausted_sentinel_silent_witness :
    sentinelStep exhaustedState (.ok pageA) = exhaustedState :=
  (exhausted_sentinel_silent exhaustedState "" true exampleBodyAB
    (.ok pageA) [] rfl (Or.inr rfl)).2.1 rfl

/-- C6: a completed fresh-search fetch leaves the entry list equal to
exactly that page's formatted keys, independently of whatever was
accumulated before (any two prior states end with the same list), while a
continuation call appends the page at the end, preserving order. -/
theorem fresh_search_resets
    (s t : ComponentState) (v : String) (d : ResponseData)
    (hnoerr : truthyStr d.error = false) :
    (fetchEntries s v true (.ok d)).1.entries = formattedEntries d
    ∧ (fetchEntries t v true (.ok d)).1.entries
        = (fetchEntries s v true (.ok d)).1.entries
    ∧ (fetchEntries s v false (.ok d)).1.entries
        = s.entries ++ formattedEntries d := by
  refine ⟨?_, ?_, ?_⟩ <;> simp [fetchEntries, fetchStart, hnoerr]

/-- C6 witness: a fresh search from a state already holding entries. -/
theorem fresh_search_resets_witness :
    (fetchEntries stateWithCursor "p" true (.ok pageA)).1.entries
      = formattedEntries pageA :=
  (fresh_search_resets stateWithCursor initialState "p" pageA rfl).1

/-- C7: `setIsLoading(true)` opens every call and the finally block leaves
`isLoading` false on every outcome — parsed body (with or without an error
field), thrown `Error`, or thrown non-`Error`. -/
theorem loading_flag_lifecycle (s : ComponentState) (v : String) (b : Bool)
    (o : FetchOutcome) :
    (fetchStart s).isLoading = true
    ∧ (fetchEntries s v b o).1.isLoading = false :=
  ⟨rfl, rfl⟩

/-- C8: a keystroke logs an immediate fresh-search fetch with the new text
and (re)schedules the debounce timer on it; the timer firing logs a second
fresh-search fetch with the same text; unmount or a further keystroke
replaces or clears the pending timer. -/
theorem search_change_dual_fetch
    (dn : String) (st : SearchBoxState) (v w : String) (hdn : dn ≠ "") :
    (uiStep dn st (.searchChange v)).fetchLog = st.fetchLog ++ [(v, true)]
    ∧ (uiStep dn st (.searchChange v)).pendingTimer = some v
    ∧ (uiStep dn st (.searchChange v)).searchQuery = v
    ∧ (uiStep dn (uiStep dn st (.searchChange v)) .timerFire).fetchLog
        = st.fetchLog ++ [(v, true), (v, true)]
    ∧ (uiStep dn (uiStep dn st (.searchChange v)) .timerFire).pendingTimer
        = none
    ∧ (uiStep dn (uiStep dn st (.searchChange v)) .unmount).pendingTimer
        = none
    ∧ (uiStep dn (uiStep dn st (.searchChange v))
        (.searchChange w)).pendingTimer = some w := by
  have hdn' : (dn == "") = false := by simp [hdn]
  refine ⟨rfl, rfl, rfl, ?_, ?_, rfl, rfl⟩ <;> simp [uiStep, hdn']

/-- C8 witness: one keystroke `"x"` then an idle period. -/
theorem search_change_dual_fetch_witness :
    (uiStep "ds" (uiStep "ds" initialSearchBox (.searchChange "x"))
      .timerFire).fetchLog
      = initialSearchBox.fetchLog ++ [("x", true), ("x", true)] :=
  (search_change_dual_fetch "ds" initialSearchBox "x" "y" (by decide)).2.2.2.1

/-- C9: selecting the entry with key `"k1"` invokes the selection callback
exactly once with `"k1"` and returns the component state unchanged. -/
theorem entry_select_callback (s : ComponentState) :
    (handleEntrySelect s "k1").2 = ["k1"]
    ∧ (handleEntrySelect s "k1").1 = s :=
  ⟨rfl, rfl⟩

/-- C10: a successful body with no `keys` field and no `error` field is an
empty page: no toast, a fresh search leaves the list empty, a continuation
leaves it unchanged, and cursor and `hasMore` are still updated from
`nextPageCursor`. -/
theorem missing_keys_treated_empty
    (s : ComponentState) (v : String) (b : Bool) (d : ResponseData)
    (hkeys : d.keys = none) (herr : d.error = none) :
    (fetchEntries s v b (.ok d)).2 = []
    ∧ formattedEntries d = []
    ∧ (fetchEntries s v true (.ok d)).1.entries = []
    ∧ (fetchEntries s v false (.ok d)).1.entries = s.entries
    ∧ (fetchEntries s v b (.ok d)).1.cursor = orEmptyStr d.nextPageCursor
    ∧ (fetchEntries s v b (.ok d)).1.hasMore = truthyStr d.nextPageCursor := by
  have hnoerr : truthyStr d.error = false := by simp [herr, truthyStr]
  refine ⟨?_, ?_, ?_, ?_, ?_, ?_⟩
  all_goals simp [fetchEntries, fetchStart, formattedEntries, hnoerr, hkeys]

/-- C10 witness: a keyless body with cursor `"z"`, as a continuation. -/
theorem missing_keys_treated_empty_witness :
    (fetchEntries stateWithCursor "p" false (.ok bodyNoKeys)).1.entries
      = stateWithCursor.entries :=
  (missing_keys_treated_empty stateWithCursor "p" false bodyNoKeys rfl
    rfl).2.2.2.1

end EntryListModel
